import Mathlib

/-!
Shallow embedding of the LabelPrinter backend (Correios label generation).

Conventions used throughout:
* Python strings are modelled as `List Char`; string literals are written
  via `String.toList`.
* `re.sub(r'\D', '', s)` is modelled as `List.filter Char.isDigit` (the
  source only ever feeds ASCII postal data through it).
* Fallible Python code (functions that can `raise`) returns `Except`.
* `dict` values are modelled as association lists in insertion order,
  `None`-able fields as `Option`.

Sources embedded: `backend/services/correios_codes.py` (classes `CEPNet`
and `DataMatrix`), `backend/label_generator.py` (class `LabelGenerator`)
and the `LABEL_SIZES` catalog of `backend/config.py`.
-/

namespace LabelPrinter

/-- Python `re.sub(r'\D', '', s)`: keep only the digit characters. -/
def pyDigits (s : List Char) : List Char := s.filter Char.isDigit

/-- Python `s.ljust(w, c)`: pad on the right with `c` up to width `w`. -/
def ljust (s : List Char) (w : Nat) (c : Char) : List Char :=
  s ++ List.replicate (w - s.length) c

/-- Python `s.zfill(w)`: pad with `'0'` on the left up to width `w`,
keeping a leading sign character in place. -/
def zfill (s : List Char) (w : Nat) : List Char :=
  match s with
  | [] => List.replicate w '0'
  | c :: rest =>
    if c = '+' ∨ c = '-' then c :: (List.replicate (w - (rest.length + 1)) '0' ++ rest)
    else List.replicate (w - (rest.length + 1)) '0' ++ (c :: rest)

/-- Python `s.upper()` on the ASCII data the program handles. -/
def pyUpper (s : List Char) : List Char := s.map Char.toUpper

/-- Python `int(d)` for a single digit character. -/
def digitVal (c : Char) : Nat := c.toNat - 48

namespace CEPNet

/-- Static digit-to-bars table `CEPNet.DIGIT_ENCODING` of
`services/correios_codes.py` (`'A'` = high bar, `'B'` = low bar);
a missing key is `none` (Python would raise `KeyError`). -/
def DIGIT_ENCODING : Char → Option (List Char)
  | '0' => some "BBAAB".toList
  | '1' => some "BABAB".toList
  | '2' => some "BABBA".toList
  | '3' => some "BAABB".toList
  | '4' => some "ABBAB".toList
  | '5' => some "ABBBA".toList
  | '6' => some "ABABB".toList
  | '7' => some "AABBB".toList
  | '8' => some "AABAB".toList
  | '9' => some "AABBA".toList
  | _ => none

/-- `CEPNet.calculate_check_digit`: strip non-digits, keep the first 8
characters, require exactly 8 digits, then return the distance from the
digit sum up to the next multiple of ten (0 when the sum is already a
multiple of ten). -/
def calculate_check_digit (cep : List Char) : Except String Nat :=
  let cep_digits := ((pyDigits cep).take 8).map digitVal
  if cep_digits.length ≠ 8 then Except.error "CEP deve ter 8 digitos"
  else
    let soma := cep_digits.sum
    if soma % 10 = 0 then Except.ok 0
    else Except.ok (((soma / 10) + 1) * 10 - soma)

/-- `CEPNet.format_cep_with_check`: the cleaned code followed by the
rendering of the check digit (`str(check)` in the source). -/
def format_cep_with_check (cep : List Char) : Except String (List Char) :=
  let cep_clean := (pyDigits cep).take 8
  (calculate_check_digit cep_clean).map (fun check => cep_clean ++ (Nat.repr check).toList)

/-- Helper for `generate_barcode_pattern`: the loop
`for digit in full_code: pattern += DIGIT_ENCODING[digit]`, with a
`none` result standing for Python's `KeyError`. -/
def encodeDigits : List Char → Option (List Char)
  | [] => some []
  | c :: rest => do
    let head ← DIGIT_ENCODING c
    let tail ← encodeDigits rest
    pure (head ++ tail)

/-- `CEPNet.generate_barcode_pattern`: start bar `'A'`, the five-bar
pattern of each of the 9 digits (8 code digits plus the check digit),
end bar `'A'`. -/
def generate_barcode_pattern (cep : List Char) : Except String (List Char) :=
  let cep_clean := (pyDigits cep).take 8
  match calculate_check_digit cep_clean with
  | Except.error e => Except.error e
  | Except.ok check_digit =>
    let full_code := cep_clean ++ (Nat.repr check_digit).toList
    match encodeDigits full_code with
    | some body => Except.ok ('A' :: body ++ ['A'])
    | none => Except.error "KeyError"

end CEPNet

end LabelPrinter

namespace LabelPrinter

/-- Sum of the digit values of a postal code, as summed by
`calculate_check_digit`. -/
def digitSum (cep : List Char) : Nat := (cep.map digitVal).sum

theorem pyDigits_of_all_digits {cep : List Char} (hd : ∀ c ∈ cep, c.isDigit = true) :
    pyDigits cep = cep :=
  List.filter_eq_self.mpr hd

theorem calculate_check_digit_of_digits (cep : List Char)
    (h8 : cep.length = 8) (hd : ∀ c ∈ cep, c.isDigit = true) :
    CEPNet.calculate_check_digit cep =
      Except.ok (if digitSum cep % 10 = 0 then 0 else ((digitSum cep / 10) + 1) * 10 - digitSum cep) := by
  unfold CEPNet.calculate_check_digit
  rw [pyDigits_of_all_digits hd, ← h8, List.take_length]
  simp only [List.length_map, h8, digitSum]
  norm_num
  split <;> rfl

end LabelPrinter

open LabelPrinter in
/-- C1: for a postal code of exactly 8 numeric digits,
`CEPNet.calculate_check_digit` returns 0 when the digit sum `s` is a
multiple of 10 and `((s / 10) + 1) * 10 - s` (the distance up to the
next multiple of ten) otherwise. -/
theorem cepnet_check_digit_spec (cep : List Char)
    (h8 : cep.length = 8) (hd : ∀ c ∈ cep, c.isDigit = true) :
    CEPNet.calculate_check_digit cep =
      Except.ok (if digitSum cep % 10 = 0 then 0
                 else ((digitSum cep / 10) + 1) * 10 - digitSum cep) :=
  calculate_check_digit_of_digits cep h8 hd

open LabelPrinter in
/-- Witness for C1 at the spec's known vector `71010050` (digit sum 14,
check digit 6); the second known vector `00000000` (digit sum 0, check
digit 0) is evaluated alongside. -/
theorem cepnet_check_digit_spec_witness :
    (("71010050".toList).length = 8 ∧ (∀ c ∈ "71010050".toList, c.isDigit = true)) ∧
      CEPNet.calculate_check_digit "71010050".toList = Except.ok 6 ∧
      CEPNet.calculate_check_digit "00000000".toList = Except.ok 0 := by
  refine ⟨⟨by decide, by decide⟩, ?_, by rfl⟩
  have h := cepnet_check_digit_spec "71010050".toList (by decide) (by decide)
  rw [h]
  rfl

namespace LabelPrinter

theorem isDigit_exists_ofNat (c : Char) (h : c.isDigit = true) :
    ∃ n ≤ 9, c = Char.ofNat (48 + n) := by
  have hv : 48 ≤ c.toNat ∧ c.toNat ≤ 57 := by
    simp only [Char.isDigit, Bool.and_eq_true, decide_eq_true_eq] at h
    exact ⟨h.1, h.2⟩
  refine ⟨c.toNat - 48, by omega, ?_⟩
  have h48 : 48 + (c.toNat - 48) = c.toNat := by omega
  rw [h48, Char.ofNat_toNat]

theorem DIGIT_ENCODING_of_digit (c : Char) (h : c.isDigit = true) :
    (CEPNet.DIGIT_ENCODING c).isSome = true ∧
      ((CEPNet.DIGIT_ENCODING c).getD []).length = 5 := by
  obtain ⟨n, hn, rfl⟩ := isDigit_exists_ofNat c h
  interval_cases n <;> exact ⟨by decide, by decide⟩

theorem encodeDigits_eq (l : List Char)
    (h : ∀ c ∈ l, (CEPNet.DIGIT_ENCODING c).isSome = true) :
    CEPNet.encodeDigits l =
      some ((l.map (fun c => (CEPNet.DIGIT_ENCODING c).getD [])).flatten) := by
  induction l with
  | nil => rfl
  | cons c rest ih =>
    have hc := h c (List.mem_cons_self c rest)
    obtain ⟨p, hp⟩ := Option.isSome_iff_exists.mp hc
    have hrest := ih (fun x hx => h x (List.mem_cons_of_mem c hx))
    simp [CEPNet.encodeDigits, hp, hrest]

theorem length_flatten_of_const {α : Type} (k : Nat) (f : α → List Char) :
    ∀ l : List α, (∀ x ∈ l, (f x).length = k) →
      ((l.map f).flatten).length = k * l.length := by
  intro l
  induction l with
  | nil => intro _; simp
  | cons x rest ih =>
    intro h
    have hx := h x (List.mem_cons_self x rest)
    have hr := ih (fun y hy => h y (List.mem_cons_of_mem x hy))
    simp [hx, hr, Nat.mul_succ, Nat.add_comm]

theorem check_digit_le_nine {cep : List Char} {d : Nat}
    (h : CEPNet.calculate_check_digit cep = Except.ok d) : d ≤ 9 := by
  unfold CEPNet.calculate_check_digit at h
  dsimp only at h
  split at h
  · exact absurd h (by simp)
  · set s := (((pyDigits cep).take 8).map digitVal).sum with hs
    split at h
    · cases h
      omega
    · cases h
      have := Nat.div_add_mod s 10
      have h10 : s % 10 < 10 := Nat.mod_lt _ (by omega)
      omega

theorem repr_toList_of_le_nine (d : Nat) (hd : d ≤ 9) :
    (Nat.repr d).toList = [Char.ofNat (48 + d)] := by
  interval_cases d <;> rfl

theorem repr_char_isDigit (d : Nat) (hd : d ≤ 9) :
    ∀ c ∈ (Nat.repr d).toList, c.isDigit = true := by
  interval_cases d <;> decide

end LabelPrinter

open LabelPrinter in
/-- C2: for a valid 8-digit postal code, `CEPNet.generate_barcode_pattern`
succeeds and returns one high start bar `'A'`, then the fixed five-bar
table pattern of each of the 9 digits (the 8 code digits followed by the
check digit), then one high end bar `'A'` — exactly 47 symbols. -/
theorem cepnet_barcode_pattern_spec (cep : List Char) (d : Nat)
    (h8 : cep.length = 8) (hd : ∀ c ∈ cep, c.isDigit = true)
    (hck : CEPNet.calculate_check_digit cep = Except.ok d) :
    CEPNet.generate_barcode_pattern cep =
      Except.ok ('A' ::
        (((cep ++ (Nat.repr d).toList).map
            (fun c => (CEPNet.DIGIT_ENCODING c).getD [])).flatten) ++ ['A']) ∧
    ('A' ::
        (((cep ++ (Nat.repr d).toList).map
            (fun c => (CEPNet.DIGIT_ENCODING c).getD [])).flatten) ++ ['A']).length = 47 := by
  have hd9 : d ≤ 9 := check_digit_le_nine hck
  have hfull : ∀ c ∈ cep ++ (Nat.repr d).toList, c.isDigit = true := by
    intro c hc
    rcases List.mem_append.mp hc with h | h
    · exact hd c h
    · exact repr_char_isDigit d hd9 c h
  have hsome : ∀ c ∈ cep ++ (Nat.repr d).toList,
      (CEPNet.DIGIT_ENCODING c).isSome = true :=
    fun c hc => (DIGIT_ENCODING_of_digit c (hfull c hc)).1
  have hlen5 : ∀ c ∈ cep ++ (Nat.repr d).toList,
      ((CEPNet.DIGIT_ENCODING c).getD []).length = 5 :=
    fun c hc => (DIGIT_ENCODING_of_digit c (hfull c hc)).2
  constructor
  · unfold CEPNet.generate_barcode_pattern
    rw [pyDigits_of_all_digits hd, ← h8, List.take_length]
    dsimp only
    rw [hck]
    simp only [encodeDigits_eq _ hsome]
  · have hflat := length_flatten_of_const 5
      (fun c => (CEPNet.DIGIT_ENCODING c).getD [])
      (cep ++ (Nat.repr d).toList) hlen5
    have hrl : ((Nat.repr d).toList).length = 1 := by
      rw [repr_toList_of_le_nine d hd9]
      rfl
    simp only [List.length_cons, List.length_append, hflat, h8, hrl]
    norm_num

open LabelPrinter in
/-- Witness for C2 at the code `71010050` (check digit 6): the pattern is
the expected 47-symbol bar string. -/
theorem cepnet_barcode_pattern_spec_witness :
    (("71010050".toList).length = 8 ∧ (∀ c ∈ "71010050".toList, c.isDigit = true) ∧
        CEPNet.calculate_check_digit "71010050".toList = Except.ok 6) ∧
      CEPNet.generate_barcode_pattern "71010050".toList =
        Except.ok "AAABBBBABABBBAABBABABBBAABBBAABABBBABBAABABABBA".toList ∧
      ("AAABBBBABABBBAABBABABBBAABBBAABABBBABBAABABABBA".toList).length = 47 := by
  refine ⟨⟨by decide, by decide, by rfl⟩, ?_, by decide⟩
  have h := (cepnet_barcode_pattern_spec "71010050".toList 6
    (by decide) (by decide) (by rfl)).1
  rw [h]
  rfl

open LabelPrinter in
/-- C3 (code-bug evidence): on `"123456789"` — nine numeric digits, so not
a valid 8-digit code — the codec does not fail: it silently truncates to
the first 8 digits, returning check digit 4 and the same bar pattern as
the truncated code `"12345678"`. -/
theorem cepnet_truncates_long_input :
    CEPNet.calculate_check_digit "123456789".toList = Except.ok 4 ∧
    CEPNet.generate_barcode_pattern "123456789".toList =
      CEPNet.generate_barcode_pattern "12345678".toList :=
  ⟨rfl, rfl⟩

namespace LabelPrinter

/-- Association-list lookup, modelling Python `dict` membership test plus
key access (keys are unique in every dict the program builds). -/
def assocLookup {β : Type} : List (List Char × β) → List Char → Option β
  | [], _ => none
  | (k', v) :: rest, k => if k' = k then some v else assocLookup rest k

namespace DataMatrix

/-- Additional-service table `DataMatrix.SERVICOS_ADICIONAIS`. -/
def SERVICOS_ADICIONAIS : List (List Char × List Char) :=
  [("AR".toList, "001".toList), ("MP".toList, "002".toList),
   ("VD".toList, "003".toList), ("DD".toList, "004".toList)]

/-- `DataMatrix.calculate_cep_validator`: the CEPNet check digit rendered
as a string. -/
def calculate_cep_validator (cep : List Char) : Except String (List Char) :=
  (CEPNet.calculate_check_digit cep).map (fun n => (Nat.repr n).toList)

/-- `DataMatrix.format_numero`: `"00000"` for an empty or no-number
marker, otherwise the first 5 digit characters zero-filled to width 5. -/
def format_numero (numero : List Char) : List Char :=
  if numero = [] ∨ pyUpper numero ∈ ["SN".toList, "S/N".toList, "S.N.".toList] then
    "00000".toList
  else
    zfill ((pyDigits numero).take 5) 5

/-- `DataMatrix.format_servicos_adicionais`: keep the recognized service
codes, sort ascending (Python `list.sort`; insertion sort computes the
same list because the order on the code strings is total and equal codes
are identical strings), join, and right-pad with `'0'` to width 10
(`str.ljust`). -/
def format_servicos_adicionais (servicos : List (List Char)) : List Char :=
  let codes := servicos.filterMap (fun s => assocLookup SERVICOS_ADICIONAIS (pyUpper s))
  let sorted := List.insertionSort (fun a b => a ≤ b) codes
  ljust sorted.flatten 10 '0'

/-- `DataMatrix.generate_content`: the fixed-field payload of the 2-D
symbol, fields concatenated in source order with the single `'|'`
terminator. -/
def generate_content (cep_destino numero_destino cep_origem numero_origem idv cif : List Char)
    (servicos_adicionais : Option (List (List Char)))
    (codigo_servico cnae codigo_rastreamento campo_livre : List Char) :
    Except String (List Char) :=
  let cep_dest := ljust ((pyDigits cep_destino).take 8) 8 '0'
  let cep_orig := ljust ((pyDigits cep_origem).take 8) 8 '0'
  match calculate_cep_validator cep_dest with
  | Except.error e => Except.error e
  | Except.ok validator =>
    Except.ok (cep_dest ++ format_numero numero_destino ++ cep_orig
      ++ format_numero numero_origem ++ validator
      ++ zfill (idv.take 2) 2 ++ ljust (cif.take 34) 34 '0'
      ++ format_servicos_adicionais (servicos_adicionais.getD [])
      ++ ljust (codigo_servico.take 5) 5 '0'
      ++ List.replicate 15 '0'
      ++ ljust ((pyDigits cnae).take 9) 9 '0'
      ++ ljust (codigo_rastreamento.take 13) 13 ' '
      ++ campo_livre.take 54 ++ ['|'])

end DataMatrix

theorem except_map_ok {ε α β : Type} (f : α → β) (a : α) :
    Except.map f (Except.ok a : Except ε α) = Except.ok (f a) := rfl

theorem length_ljust (s : List Char) (w : Nat) (c : Char) :
    (ljust s w c).length = max s.length w := by
  simp only [ljust, List.length_append, List.length_replicate]
  omega

theorem length_zfill (s : List Char) (w : Nat) :
    (zfill s w).length = max w s.length := by
  cases s with
  | nil => simp [zfill]
  | cons c rest =>
    by_cases h : c = '+' ∨ c = '-' <;>
      simp only [zfill, h, if_true, if_false, List.length_cons, List.length_append,
        List.length_replicate] <;> omega

theorem pyDigits_all_digits (s : List Char) : ∀ c ∈ pyDigits s, c.isDigit = true :=
  fun _ hc => List.of_mem_filter hc

theorem padded_cep_length (s : List Char) :
    (ljust ((pyDigits s).take 8) 8 '0').length = 8 := by
  rw [length_ljust]
  have : ((pyDigits s).take 8).length ≤ 8 := by
    rw [List.length_take]
    omega
  omega

theorem padded_cep_digits (s : List Char) :
    ∀ c ∈ ljust ((pyDigits s).take 8) 8 '0', c.isDigit = true := by
  intro c hc
  rcases List.mem_append.mp hc with h | h
  · exact pyDigits_all_digits s c (List.mem_of_mem_take h)
  · rw [List.eq_of_mem_replicate h]
    decide

theorem cep_validator_of_padded (s : List Char) :
    ∃ d ≤ 9, DataMatrix.calculate_cep_validator (ljust ((pyDigits s).take 8) 8 '0') =
      Except.ok [Char.ofNat (48 + d)] := by
  have hck := calculate_check_digit_of_digits _ (padded_cep_length s) (padded_cep_digits s)
  set d := (if digitSum (ljust ((pyDigits s).take 8) 8 '0') % 10 = 0 then 0
    else ((digitSum (ljust ((pyDigits s).take 8) 8 '0') / 10) + 1) * 10 -
      digitSum (ljust ((pyDigits s).take 8) 8 '0')) with hd
  have hd9 : d ≤ 9 := check_digit_le_nine hck
  refine ⟨d, hd9, ?_⟩
  rw [DataMatrix.calculate_cep_validator, hck]
  show Except.ok (Nat.repr d).toList = Except.ok [Char.ofNat (48 + d)]
  rw [repr_toList_of_le_nine d hd9]

theorem length_format_numero (numero : List Char) :
    (DataMatrix.format_numero numero).length = 5 := by
  rw [DataMatrix.format_numero]
  split
  · rfl
  · rw [length_zfill]
    have : ((pyDigits numero).take 5).length ≤ 5 := by
      rw [List.length_take]
      omega
    omega

theorem servico_lookup_length {s v : List Char}
    (h : assocLookup DataMatrix.SERVICOS_ADICIONAIS s = some v) : v.length = 3 := by
  simp only [DataMatrix.SERVICOS_ADICIONAIS, assocLookup] at h
  split at h
  · cases h; rfl
  · split at h
    · cases h; rfl
    · split at h
      · cases h; rfl
      · split at h
        · cases h; rfl
        · cases h

/-- Recognized service codes of a request, as collected by the loop of
`format_servicos_adicionais`. -/
def recognizedServicos (servicos : List (List Char)) : List (List Char) :=
  servicos.filterMap (fun s => assocLookup DataMatrix.SERVICOS_ADICIONAIS (pyUpper s))

theorem recognizedServicos_length_three (servicos : List (List Char)) :
    ∀ v ∈ recognizedServicos servicos, v.length = 3 := by
  intro v hv
  obtain ⟨s, _, hs⟩ := List.mem_filterMap.mp hv
  exact servico_lookup_length hs

theorem format_servicos_eq (servicos : List (List Char)) :
    DataMatrix.format_servicos_adicionais servicos =
      (List.insertionSort (fun a b => a ≤ b) (recognizedServicos servicos)).flatten ++
        List.replicate (10 - 3 * (recognizedServicos servicos).length) '0' := by
  rw [DataMatrix.format_servicos_adicionais, ljust]
  have hmem : ∀ v ∈ List.insertionSort (fun a b => a ≤ b) (recognizedServicos servicos),
      v.length = 3 := by
    intro v hv
    exact recognizedServicos_length_three servicos v
      ((List.perm_insertionSort _ _).mem_iff.mp hv)
  have hlen : ((List.insertionSort (fun a b => a ≤ b)
      (recognizedServicos servicos)).map id).flatten.length =
      3 * (List.insertionSort (fun a b => a ≤ b) (recognizedServicos servicos)).length := by
    exact length_flatten_of_const 3 id _ (fun x hx => hmem x hx)
  rw [List.map_id] at hlen
  rw [recognizedServicos] at hlen ⊢
  rw [hlen, (List.perm_insertionSort (fun a b => a ≤ b) _).length_eq]

theorem length_format_servicos (servicos : List (List Char)) :
    (DataMatrix.format_servicos_adicionais servicos).length =
      max 10 (3 * (recognizedServicos servicos).length) := by
  rw [format_servicos_eq]
  have hmem : ∀ v ∈ List.insertionSort (fun a b => a ≤ b) (recognizedServicos servicos),
      v.length = 3 := by
    intro v hv
    exact recognizedServicos_length_three servicos v
      ((List.perm_insertionSort _ _).mem_iff.mp hv)
  have hlen : ((List.insertionSort (fun a b => a ≤ b)
      (recognizedServicos servicos)).map id).flatten.length =
      3 * (List.insertionSort (fun a b => a ≤ b) (recognizedServicos servicos)).length :=
    length_flatten_of_const 3 id _ (fun x hx => hmem x hx)
  rw [List.map_id] at hlen
  rw [List.length_append, hlen, List.length_replicate,
    (List.perm_insertionSort (fun a b => a ≤ b) _).length_eq]
  omega

end LabelPrinter

open LabelPrinter in
/-- C5 counterexample: with the single request `["AR"]` the field is the
code `"001"` right-padded with zeros (`"0010000000"`), not the
left-padded `"0000000001"` the claim describes; and with the four
requests `["AR","MP","VD","DD"]` the field is 12 characters long, not
exactly 10. -/
theorem servicos_adicionais_claim_false :
    DataMatrix.format_servicos_adicionais ["AR".toList] = "0010000000".toList ∧
    "0010000000".toList ≠ List.replicate 7 '0' ++ "001".toList ∧
    (DataMatrix.format_servicos_adicionais
        ["AR".toList, "MP".toList, "VD".toList, "DD".toList]).length = 12 := by
  refine ⟨by rfl, by decide, by rfl⟩

open LabelPrinter in
/-- C5 amended: the additional-services field is built by keeping the
recognized 3-digit service codes, sorting them in ascending order, and
right-padding the concatenation with zeros to width 10; its length is
`max 10 (3 × number of recognized codes)`, hence exactly 10 only while at
most three codes are recognized. -/
theorem servicos_adicionais_amended (servicos : List (List Char)) :
    DataMatrix.format_servicos_adicionais servicos =
      (List.insertionSort (fun a b => a ≤ b) (recognizedServicos servicos)).flatten ++
        List.replicate (10 - 3 * (recognizedServicos servicos).length) '0' ∧
    (DataMatrix.format_servicos_adicionais servicos).length =
      max 10 (3 * (recognizedServicos servicos).length) ∧
    List.Sorted (fun a b : List Char => a ≤ b)
      (List.insertionSort (fun a b => a ≤ b) (recognizedServicos servicos)) ∧
    (List.insertionSort (fun a b => a ≤ b) (recognizedServicos servicos)).Perm
      (recognizedServicos servicos) :=
  ⟨format_servicos_eq servicos, length_format_servicos servicos,
    List.sorted_insertionSort _ _, List.perm_insertionSort _ _⟩

open LabelPrinter in
/-- C4 counterexample: two `DataMatrix.generate_content` calls that differ
only in the free field `campo_livre` return payloads of different total
lengths (116 and 117), so the output length is not one and the same for
every combination of inputs. -/
theorem datamatrix_length_claim_false :
    (DataMatrix.generate_content "01310100".toList "100".toList "70002900".toList "50".toList
        "03".toList [] none [] [] [] []).map List.length = Except.ok 116 ∧
    (DataMatrix.generate_content "01310100".toList "100".toList "70002900".toList "50".toList
        "03".toList [] none [] [] [] "X".toList).map List.length = Except.ok 117 :=
  ⟨rfl, rfl⟩

set_option maxHeartbeats 1000000 in
open LabelPrinter in
/-- C4 amended: the payload length is the sum of the fixed field widths
(105 characters) plus the additional-services field width
`max 10 (3 × recognized codes)`, plus the free field truncated to 54
characters, plus the single terminator; it is constant in every input
except the free field and the list of recognized additional services. -/
theorem datamatrix_content_length (cep_destino numero_destino cep_origem numero_origem idv cif :
      List Char) (servicos_adicionais : Option (List (List Char)))
    (codigo_servico cnae codigo_rastreamento campo_livre : List Char) :
    (DataMatrix.generate_content cep_destino numero_destino cep_origem numero_origem idv cif
        servicos_adicionais codigo_servico cnae codigo_rastreamento campo_livre).map
      List.length =
      Except.ok (106 + max 10 (3 * (recognizedServicos (servicos_adicionais.getD [])).length)
        + min 54 campo_livre.length) := by
  obtain ⟨d, hd9, hval⟩ := cep_validator_of_padded cep_destino
  simp only [DataMatrix.generate_content]
  rw [hval, except_map_ok]
  congr 1
  simp only [List.length_append, padded_cep_length, length_format_numero, List.length_cons,
    List.length_nil, length_zfill, length_ljust, List.length_take, List.length_replicate,
    length_format_servicos]
  omega

namespace LabelPrinter

/-- Loop of `LabelGenerator.generate_pimaco_sheet`: starting at label
index `idx` on physical page `page`, each `while` iteration fills up to
`rc = rows * cols` grid cells in row-major order (the `j`-th label of a
pass lands at row `j / cols`, column `j % cols`), then calls `showPage`
exactly when labels remain. The result lists the `(page, row, col)` cell
of each remaining label in drawing order, paired with the number of
`showPage` calls performed. `fuel` only bounds the number of `while`
iterations; `fuel = total` is always enough when the grid is non-empty,
since every iteration consumes at least one label. -/
def pimacoLoop (rc cols : Nat) : Nat → Nat → Nat → Nat → List (Nat × Nat × Nat) × Nat
  | 0, _, _, _ => ([], 0)
  | fuel + 1, total, idx, page =>
    if idx < total then
      let k := min rc (total - idx)
      let cells := (List.range k).map fun j => (page, j / cols, j % cols)
      let rest := pimacoLoop rc cols fuel total (idx + k) (page + 1)
      (cells ++ rest.1, (if idx + k < total then 1 else 0) + rest.2)
    else ([], 0)

/-- Geometry/pagination part of `LabelGenerator.generate_pimaco_sheet`:
the grid cell of every one of `total` labels in drawing order, and the
number of physical pages of the finished document (the `showPage` calls
plus the final page in progress that `canvas.save` emits). -/
def generate_pimaco_sheet (rows cols total : Nat) : List (Nat × Nat × Nat) × Nat :=
  let r := pimacoLoop (rows * cols) cols total total 0 0
  (r.1, r.2 + 1)

theorem pimacoLoop_spec (rc cols : Nat) (hrc : 0 < rc) :
    ∀ fuel total idx page, total - idx ≤ fuel →
      (pimacoLoop rc cols fuel total idx page).1.length = total - idx ∧
      (∀ j, j < total - idx →
        (pimacoLoop rc cols fuel total idx page).1[j]? =
          some (page + j / rc, (j % rc) / cols, (j % rc) % cols)) ∧
      (pimacoLoop rc cols fuel total idx page).2 =
        (if idx < total then (total - idx - 1) / rc else 0) := by
  intro fuel
  induction fuel with
  | zero =>
    intro total idx page h
    have hle : ¬ idx < total := by omega
    refine ⟨by simp [pimacoLoop]; omega, ?_, by simp [pimacoLoop, hle]⟩
    intro j hj
    omega
  | succ fuel ih =>
    intro total idx page h
    by_cases hlt : idx < total
    · simp only [pimacoLoop, hlt, if_true]
      generalize hkdef : min rc (total - idx) = k
      have hkle : k ≤ total - idx := hkdef ▸ Nat.min_le_right _ _
      have hklerc : k ≤ rc := hkdef ▸ Nat.min_le_left _ _
      have hk1 : 1 ≤ k := hkdef ▸ Nat.le_min.mpr ⟨hrc, by omega⟩
      obtain ⟨ihlen, ihget, ihsnd⟩ := ih total (idx + k) (page + 1) (by omega)
      refine ⟨?_, ?_, ?_⟩
      · simp only [List.length_append, List.length_map, List.length_range, ihlen]
        omega
      · intro j hj
        rw [List.getElem?_append]
        simp only [List.length_map, List.length_range]
        by_cases hjk : j < k
        · rw [if_pos hjk, List.getElem?_map, List.getElem?_range hjk]
          have hjrc : j < rc := by omega
          rw [Nat.div_eq_of_lt hjrc, Nat.mod_eq_of_lt hjrc]
          simp
        · have hkrc : k = rc := by omega
          rw [if_neg hjk, ihget (j - k) (by omega)]
          have hjrc : rc ≤ j := by omega
          rw [hkrc, Nat.mod_eq_sub_mod hjrc, Nat.div_eq_sub_div hrc hjrc]
          congr 2
          omega
      · rw [ihsnd]
        by_cases hmore : idx + k < total
        · have hkrc : k = rc := by omega
          rw [if_pos hmore, if_pos hmore]
          have hge : rc ≤ total - idx - 1 := by omega
          rw [Nat.div_eq_sub_div hrc hge]
          have harg : total - (idx + k) - 1 = total - idx - 1 - rc := by omega
          rw [harg]
          omega
        · rw [if_neg hmore, if_neg hmore]
          have hsmall : total - idx - 1 < rc := by omega
          rw [Nat.div_eq_of_lt hsmall]
    · simp only [pimacoLoop, hlt, if_false]
      refine ⟨by simp only [List.length_nil]; omega, ?_, by simp⟩
      intro j hj
      omega

end LabelPrinter

open LabelPrinter in
/-- C6: on a multi-up sheet with `rows × cols` cells per page and a
non-empty batch of `total` labels, label `i` (0-based, drawing order) is
placed on page `i / (rows*cols)`, at row `(i % (rows*cols)) / cols` and
column `(i % (rows*cols)) % cols` (row-major fill), every label is
placed, and the finished document has `ceil(total / (rows*cols))` pages. -/
theorem pimaco_pagination_spec (rows cols total : Nat)
    (hr : 1 ≤ rows) (hc : 1 ≤ cols) (ht : 1 ≤ total) :
    (generate_pimaco_sheet rows cols total).2 =
      (total + rows * cols - 1) / (rows * cols) ∧
    (generate_pimaco_sheet rows cols total).1.length = total ∧
    ∀ i < total, (generate_pimaco_sheet rows cols total).1[i]? =
      some (i / (rows * cols), (i % (rows * cols)) / cols, (i % (rows * cols)) % cols) := by
  have hrc : 0 < rows * cols := Nat.mul_pos hr hc
  obtain ⟨hlen, hget, hsnd⟩ :=
    pimacoLoop_spec (rows * cols) cols hrc total total 0 0 (by omega)
  refine ⟨?_, ?_, ?_⟩
  · show (pimacoLoop (rows * cols) cols total total 0 0).2 + 1 = _
    rw [hsnd, if_pos (by omega : 0 < total)]
    have hnum : total + rows * cols - 1 = (total - 0 - 1) + rows * cols := by omega
    rw [hnum, Nat.add_div_right _ hrc]
  · show (pimacoLoop (rows * cols) cols total total 0 0).1.length = total
    rw [hlen]
    omega
  · intro i hi
    have := hget i (by omega)
    simpa using this

open LabelPrinter in
/-- Witness for C6 at the Pimaco A4 grid (`rows = 7`, `cols = 2`) with 20
labels: 2 pages, label 14 opens the second page at row 0 column 0, all
20 labels are placed, and the second page holds exactly 6 labels. -/
theorem pimaco_pagination_spec_witness :
    (1 ≤ 7 ∧ 1 ≤ 2 ∧ 1 ≤ 20) ∧
      (generate_pimaco_sheet 7 2 20).2 = 2 ∧
      (generate_pimaco_sheet 7 2 20).1[14]? = some (1, 0, 0) ∧
      (generate_pimaco_sheet 7 2 20).1.length = 20 ∧
      ((generate_pimaco_sheet 7 2 20).1.countP (fun cell => cell.1 == 1)) = 6 := by
  obtain ⟨h1, h2, h3⟩ := pimaco_pagination_spec 7 2 20 (by decide) (by decide) (by decide)
  refine ⟨⟨by decide, by decide, by decide⟩, by rw [h1], ?_, by rw [h2], by rfl⟩
  rw [h3 14 (by decide)]

namespace LabelPrinter

namespace LabelGenerator

/-- `LabelGenerator._normalize_cep`: strip non-digits and keep the first
8 characters. -/
def normalize_cep (cep : List Char) : List Char := (pyDigits cep).take 8

/-- `LabelGenerator._format_cep`: hyphenate as `DDDDD-DDD` when the
normalized code has exactly 8 digits, otherwise return the input
unchanged. -/
def format_cep (cep : List Char) : List Char :=
  let cep_clean := normalize_cep cep
  if cep_clean.length = 8 then cep_clean.take 5 ++ ['-'] ++ cep_clean.drop 5
  else cep

/-- Destination address record consumed by `_format_address_correios`:
keys the method reads with a plain subscript are required fields, keys it
reads with `dict.get` are `Option` fields. -/
structure Endereco where
  destinatario : Option (List Char) := none
  logradouro : List Char
  numero : Option (List Char) := none
  complemento : Option (List Char) := none
  bairro : List Char
  cidade : List Char
  estado : List Char
  cep : List Char

/-- `LabelGenerator._format_address_correios`: the four display lines of
the destination block — upper-cased name (the `destinatario` override or
the fallback name, Python truthiness `or`), street line with the `s/n`
fallback and the optional complement, the neighborhood verbatim, and the
`CEP cidade/UF` locality line. -/
def format_address_correios (endereco : Endereco) (nome : List Char) : List (List Char) :=
  let destinatario := match endereco.destinatario with
    | some d => if d = [] then nome else d
    | none => nome
  let numero0 := endereco.numero.getD "s/n".toList
  let numero := if numero0 = [] ∨
      pyUpper numero0 ∈ [([] : List Char), "SN".toList, "S.N.".toList] then
    "s/n".toList
  else numero0
  let logradouro := endereco.logradouro ++ ", ".toList ++ numero ++
    (match endereco.complemento with
     | some c => if c = [] then [] else ", ".toList ++ c
     | none => [])
  [pyUpper destinatario, logradouro, endereco.bairro,
    format_cep endereco.cep ++ " ".toList ++ endereco.cidade ++ "/".toList ++
      pyUpper endereco.estado]

/-- Sender record consumed by `_format_remetente_correios`: the method
reads every key with `dict.get` and a default, so all fields are
optional. -/
structure Remetente where
  nome : Option (List Char) := none
  logradouro : Option (List Char) := none
  numero : Option (List Char) := none
  complemento : Option (List Char) := none
  cep : Option (List Char) := none
  cidade : Option (List Char) := none
  estado : Option (List Char) := none

/-- `LabelGenerator._format_remetente_correios` on the generator state
`self.remetente` (`none` when no sender is configured): a `"Rem: "`-name
line, a street line (only the empty-number fallback, no `SN`/`S.N.`
normalization), and the locality line — three lines, with no
neighborhood line. -/
def format_remetente_correios (remetente : Option Remetente) : List (List Char) :=
  match remetente with
  | none => []
  | some r =>
    let numero0 := r.numero.getD "s/n".toList
    let numero := if numero0 = [] then "s/n".toList else numero0
    let logradouro := r.logradouro.getD [] ++ ", ".toList ++ numero ++
      (match r.complemento with
       | some c => if c = [] then [] else ", ".toList ++ c
       | none => [])
    ["Rem: ".toList ++ r.nome.getD [],
     logradouro,
     format_cep (r.cep.getD []) ++ " ".toList ++ r.cidade.getD [] ++ "/".toList ++
       pyUpper (r.estado.getD [])]

/-- Values held by the generator's `config` dict. -/
inductive ConfigVal where
  | int (n : Int)
  | bool (b : Bool)
  | str (s : List Char)
deriving DecidableEq

/-- Python `d[k] = v` on a dict modelled as an association list in
insertion order: overwrite the value of an existing key in place, append
a new key at the end. -/
def dictSet {β : Type} : List (List Char × β) → List Char → β → List (List Char × β)
  | [], k, v => [(k, v)]
  | (k', v') :: rest, k, v =>
    if k' = k then (k', v) :: rest else (k', v') :: dictSet rest k v

/-- Python `d.update(u)`: set each key/value pair of `u` in order. -/
def dict_update {β : Type} (d u : List (List Char × β)) : List (List Char × β) :=
  u.foldl (fun acc kv => dictSet acc kv.1 kv.2) d

/-- Default `self.config` built by `LabelGenerator.__init__`. -/
def default_config : List (List Char × ConfigVal) :=
  [("resolucao_dpi".toList, ConfigVal.int 300),
   ("incluir_cepnet".toList, ConfigVal.bool true),
   ("incluir_datamatrix".toList, ConfigVal.bool false),
   ("fonte_padrao".toList, ConfigVal.str "Helvetica".toList),
   ("tamanho_fonte_min".toList, ConfigVal.int 10)]

/-- `LabelGenerator.set_config`: `self.config.update(config)`. -/
def set_config (self_config config : List (List Char × ConfigVal)) :
    List (List Char × ConfigVal) :=
  dict_update self_config config

/-- One entry of the `LABEL_SIZES` catalog of `config.py`; millimeter
dimensions are exact rationals, grid parameters are present only for the
multi-up entry. -/
structure LabelSize where
  width : ℚ
  height : ℚ
  sizeName : List Char
  labels_per_sheet : Option Nat := none
  columns : Option Nat := none
  rows : Option Nat := none
  page_width : Option ℚ := none
  page_height : Option ℚ := none
  margin_top : Option ℚ := none
  margin_left : Option ℚ := none
  spacing_h : Option ℚ := none
  spacing_v : Option ℚ := none
deriving DecidableEq

/-- The `LABEL_SIZES` catalog of `config.py`. -/
def LABEL_SIZES : List (List Char × LabelSize) :=
  [("thermal_60x30".toList,
    { width := 60, height := 30, sizeName := "Térmica 60x30mm".toList }),
   ("thermal_100x80".toList,
    { width := 100, height := 80, sizeName := "Térmica 100x80mm".toList }),
   ("pimaco_a4".toList,
    { width := 99, height := 381/10, sizeName := "Pimaco A4 (38,1x99mm)".toList,
      labels_per_sheet := some 14, columns := some 2, rows := some 7,
      page_width := some 210, page_height := some 297,
      margin_top := some (127/10), margin_left := some (635/100),
      spacing_h := some 3, spacing_v := some 0 }),
   ("envelope_dl".toList,
    { width := 220, height := 110, sizeName := "Envelope DL (110x220mm)".toList }),
   ("envelope_c5".toList,
    { width := 229, height := 162, sizeName := "Envelope C5 (162x229mm)".toList })]

/-- Python `s.startswith(pre)` (first argument is the candidate front
piece). -/
def startswith : List Char → List Char → Bool
  | [], _ => true
  | _ :: _, [] => false
  | p :: ps, c :: cs => if p = c then startswith ps cs else false

/-- Failures of `LabelGenerator.generate_label` and of the size-catalog
subscript its branches perform first (`KeyError`). -/
inductive GenError where
  | unsupportedLabelType (tipo : List Char)
  | keyError (key : List Char)
deriving DecidableEq

/-- Layout strategy selected by the `generate_label` dispatch, carrying
the catalog entry the selected generator reads. -/
inductive LabelBranch where
  | thermal (cfg : LabelSize)
  | pimacoA4
  | pimaco6
  | envelope (cfg : LabelSize)
deriving DecidableEq

/-- `LabelGenerator.generate_label` up to the point where drawing starts:
the dispatch over the label-type identifier, together with the
`LABEL_SIZES[...]` subscript that the thermal and envelope generators
execute before anything else (a missing key raises Python's `KeyError`).
The `pimaco_6` branch uses an inline grid config and the `pimaco_a4`
branch reads the catalog key `"pimaco_a4"`, which exists; the drawing
itself is an external capability. -/
def generate_label (tipo_etiqueta : List Char) : Except GenError LabelBranch :=
  if startswith "thermal_".toList tipo_etiqueta then
    match assocLookup LABEL_SIZES tipo_etiqueta with
    | some cfg => Except.ok (LabelBranch.thermal cfg)
    | none => Except.error (GenError.keyError tipo_etiqueta)
  else if tipo_etiqueta = "pimaco_a4".toList then Except.ok LabelBranch.pimacoA4
  else if tipo_etiqueta = "pimaco_6".toList then Except.ok LabelBranch.pimaco6
  else if startswith "envelope_".toList tipo_etiqueta then
    match assocLookup LABEL_SIZES tipo_etiqueta with
    | some cfg => Except.ok (LabelBranch.envelope cfg)
    | none => Except.error (GenError.keyError tipo_etiqueta)
  else Except.error (GenError.unsupportedLabelType tipo_etiqueta)

/-- The supported label types: the format-catalog keys plus the extra
`"pimaco_6"` layout that the dispatch accepts. -/
def supported_label_types : List (List Char) :=
  LABEL_SIZES.map Prod.fst ++ ["pimaco_6".toList]

end LabelGenerator

end LabelPrinter

open LabelPrinter LabelPrinter.LabelGenerator in
/-- C7 counterexample: with a sender configured, the formatted sender
block has 3 lines, not the 4-line shape of the destination formatter —
the neighborhood line is missing. -/
theorem remetente_block_claim_false :
    (format_remetente_correios (some
      { nome := some "Ana Lima".toList, logradouro := some "Rua B".toList,
        numero := some "1".toList, complemento := none,
        cep := some "01310100".toList, cidade := some "Sao Paulo".toList,
        estado := some "sp".toList })).length = 3 ∧
    (3 : Nat) ≠ 4 ∧
    (format_address_correios
      { logradouro := "Rua B".toList, bairro := "Centro".toList,
        cidade := "Sao Paulo".toList, estado := "sp".toList,
        cep := "01310100".toList }
      "Ana Lima".toList).length = 4 :=
  ⟨rfl, by decide, rfl⟩

open LabelPrinter LabelPrinter.LabelGenerator in
/-- C7 amended: whenever a sender is configured, the sender block has
three lines — a name line prefixed `"Rem: "` (not upper-cased), a street
line, and a locality line shaped like the destination formatter's last
line — while the destination block always has four lines; the sender
block omits the neighborhood line. -/
theorem remetente_block_amended (r : Remetente) :
    (format_remetente_correios (some r)).length = 3 ∧
    (format_remetente_correios (some r)).head? =
      some ("Rem: ".toList ++ r.nome.getD []) ∧
    (format_remetente_correios (some r)).getLast? =
      some (format_cep (r.cep.getD []) ++ " ".toList ++ r.cidade.getD [] ++
        "/".toList ++ pyUpper (r.estado.getD [])) ∧
    ∀ (e : Endereco) (nome : List Char),
      (format_address_correios e nome).length = 4 :=
  ⟨rfl, rfl, rfl, fun _ _ => rfl⟩

namespace LabelPrinter

theorem assocLookup_dictSet {β : Type} (d : List (List Char × β)) (k : List Char) (v : β)
    (k' : List Char) :
    assocLookup (LabelGenerator.dictSet d k v) k' =
      if k = k' then some v else assocLookup d k' := by
  induction d with
  | nil =>
    simp only [LabelGenerator.dictSet, assocLookup]
  | cons hd tl ih =>
    obtain ⟨k0, v0⟩ := hd
    simp only [LabelGenerator.dictSet]
    by_cases h0 : k0 = k
    · subst h0
      rw [if_pos rfl]
      simp only [assocLookup]
      split_ifs <;> rfl
    · rw [if_neg h0]
      simp only [assocLookup, ih]
      by_cases h1 : k0 = k'
      · by_cases h2 : k = k'
        · exact absurd (h2.trans h1.symm) (fun he => h0 he.symm)
        · simp [h1, h2]
      · by_cases h2 : k = k' <;> simp [h1, h2]

theorem assocLookup_eq_none_of_not_mem {β : Type} (l : List (List Char × β)) (k : List Char)
    (h : k ∉ l.map Prod.fst) : assocLookup l k = none := by
  induction l with
  | nil => rfl
  | cons hd tl ih =>
    obtain ⟨k0, v0⟩ := hd
    simp only [List.map_cons, List.mem_cons] at h
    push_neg at h
    have hne : ¬ (k0 = k) := fun he => h.1 he.symm
    show (if k0 = k then some v0 else assocLookup tl k) = none
    rw [if_neg hne]
    exact ih h.2

theorem dict_update_lookup (d u : List (List Char × LabelGenerator.ConfigVal))
    (hnd : (u.map Prod.fst).Nodup) (k : List Char) :
    assocLookup (LabelGenerator.dict_update d u) k =
      match assocLookup u k with
      | some v => some v
      | none => assocLookup d k := by
  induction u generalizing d with
  | nil => rfl
  | cons hd u ih =>
    obtain ⟨k0, v0⟩ := hd
    simp only [List.map_cons, List.nodup_cons] at hnd
    have step : LabelGenerator.dict_update d ((k0, v0) :: u) =
        LabelGenerator.dict_update (LabelGenerator.dictSet d k0 v0) u := rfl
    rw [step, ih _ hnd.2]
    by_cases h0 : k0 = k
    · subst h0
      have hu : assocLookup u k0 = none :=
        assocLookup_eq_none_of_not_mem u k0 hnd.1
      have h1 : assocLookup ((k0, v0) :: u) k0 = some v0 := by
        simp [assocLookup]
      rw [hu, h1, assocLookup_dictSet]
      simp
    · have h1 : assocLookup ((k0, v0) :: u) k = assocLookup u k := by
        simp [assocLookup, h0]
      rw [h1, assocLookup_dictSet, if_neg h0]

end LabelPrinter

open LabelPrinter LabelPrinter.LabelGenerator in
/-- C8: `set_config` is a shallow key merge — for every current config,
every update whose keys are distinct (as in any Python dict), and every
key, the merged config maps a key present in the update to its new value
and any other key to its previous value. -/
theorem set_config_shallow_merge (d u : List (List Char × ConfigVal))
    (hnd : (u.map Prod.fst).Nodup) (k : List Char) :
    assocLookup (set_config d u) k =
      match assocLookup u k with
      | some v => some v
      | none => assocLookup d k :=
  dict_update_lookup d u hnd k

open LabelPrinter LabelPrinter.LabelGenerator in
/-- Witness for C8: updating the default config with
`{"incluir_cepnet": false}` flips only that key and leaves
`resolucao_dpi` at 300. -/
theorem set_config_shallow_merge_witness :
    (([("incluir_cepnet".toList, ConfigVal.bool false)].map Prod.fst).Nodup) ∧
      assocLookup (set_config default_config
        [("incluir_cepnet".toList, ConfigVal.bool false)]) "resolucao_dpi".toList =
        some (ConfigVal.int 300) ∧
      assocLookup (set_config default_config
        [("incluir_cepnet".toList, ConfigVal.bool false)]) "incluir_cepnet".toList =
        some (ConfigVal.bool false) := by
  refine ⟨by decide, ?_, ?_⟩
  · rw [set_config_shallow_merge default_config
      [("incluir_cepnet".toList, ConfigVal.bool false)] (by decide) "resolucao_dpi".toList]
    rfl
  · rw [set_config_shallow_merge default_config
      [("incluir_cepnet".toList, ConfigVal.bool false)] (by decide) "incluir_cepnet".toList]
    rfl

open LabelPrinter LabelPrinter.LabelGenerator in
/-- C9 counterexample: `"thermal_x"` is not a supported label type, yet
`generate_label` does not fail with the typed unsupported-label error —
the `startswith("thermal_")` dispatch sends it into the thermal
generator, whose catalog subscript fails with a key-lookup error
instead. -/
theorem generate_label_wrong_error_kind :
    "thermal_x".toList ∉ supported_label_types ∧
    generate_label "thermal_x".toList =
      Except.error (GenError.keyError "thermal_x".toList) ∧
    generate_label "thermal_x".toList ≠
      Except.error (GenError.unsupportedLabelType "thermal_x".toList) := by
  refine ⟨by decide, by rfl, ?_⟩
  intro h
  exact absurd (Except.error.inj h) (by decide)

open LabelPrinter LabelPrinter.LabelGenerator in
/-- C9 amended: an identifier that does not start with `"thermal_"` or
`"envelope_"` and is neither `"pimaco_a4"` nor `"pimaco_6"` fails with
the typed `UnsupportedLabelType` error before any drawing; an identifier
with one of those prefixes but absent from the size catalog instead
fails with a key-lookup error. -/
theorem generate_label_dispatch_amended :
    (∀ tipo : List Char,
      startswith "thermal_".toList tipo = false →
      startswith "envelope_".toList tipo = false →
      tipo ≠ "pimaco_a4".toList →
      tipo ≠ "pimaco_6".toList →
      generate_label tipo = Except.error (GenError.unsupportedLabelType tipo)) ∧
    (∀ tipo : List Char,
      (startswith "thermal_".toList tipo = true ∨
        startswith "envelope_".toList tipo = true) →
      assocLookup LABEL_SIZES tipo = none →
      generate_label tipo = Except.error (GenError.keyError tipo)) := by
  constructor
  · intro tipo h1 h2 h3 h4
    unfold generate_label
    rw [h1, h2]
    have h3l : tipo ≠ ['p', 'i', 'm', 'a', 'c', 'o', '_', 'a', '4'] := h3
    have h4l : tipo ≠ ['p', 'i', 'm', 'a', 'c', 'o', '_', '6'] := h4
    simp [h3l, h4l]
  · intro tipo hdisj hnone
    by_cases hth : startswith "thermal_".toList tipo = true
    · unfold generate_label
      rw [hth, hnone]
      simp
    · have henv : startswith "envelope_".toList tipo = true := hdisj.resolve_left hth
      have hp4 : tipo ≠ "pimaco_a4".toList := by
        intro he
        rw [he] at henv
        exact absurd henv (by decide)
      have hp6 : tipo ≠ "pimaco_6".toList := by
        intro he
        rw [he] at henv
        exact absurd henv (by decide)
      simp only [Bool.not_eq_true] at hth
      unfold generate_label
      rw [hth, henv, hnone]
      have hp4l : tipo ≠ ['p', 'i', 'm', 'a', 'c', 'o', '_', 'a', '4'] := hp4
      have hp6l : tipo ≠ ['p', 'i', 'm', 'a', 'c', 'o', '_', '6'] := hp6
      simp [hp4l, hp6l]

open LabelPrinter LabelPrinter.LabelGenerator in
/-- Witness for C9 (amended) at the identifier `"foo"`: no recognized
prefix or name, so the dispatch fails with the typed unsupported-label
error. -/
theorem generate_label_dispatch_amended_witness :
    (startswith "thermal_".toList "foo".toList = false ∧
      startswith "envelope_".toList "foo".toList = false ∧
      "foo".toList ≠ "pimaco_a4".toList ∧ "foo".toList ≠ "pimaco_6".toList) ∧
    generate_label "foo".toList =
      Except.error (GenError.unsupportedLabelType "foo".toList) :=
  ⟨⟨by decide, by decide, by decide, by decide⟩,
    generate_label_dispatch_amended.1 "foo".toList
      (by decide) (by decide) (by decide) (by decide)⟩

open LabelPrinter LabelPrinter.LabelGenerator in
/-- C10: `_format_cep` returns any input with fewer than 8 digit
characters unchanged (no error), so a malformed postal code flows
verbatim into the locality line of the formatted address; an input with
8 or more digit characters has its first 8 digits formatted as
`DDDDD-DDD`. -/
theorem format_cep_spec :
    (∀ cep : List Char, (pyDigits cep).length < 8 →
      format_cep cep = cep) ∧
    (∀ cep : List Char, 8 ≤ (pyDigits cep).length →
      format_cep cep =
        ((pyDigits cep).take 8).take 5 ++ ['-'] ++ ((pyDigits cep).take 8).drop 5) ∧
    (∀ (e : Endereco) (nome : List Char), (pyDigits e.cep).length < 8 →
      (format_address_correios e nome).getLast? =
        some (e.cep ++ " ".toList ++ e.cidade ++ "/".toList ++ pyUpper e.estado)) := by
  have hlt : ∀ cep : List Char, (pyDigits cep).length < 8 → format_cep cep = cep := by
    intro cep h
    have hne : ¬ (((pyDigits cep).take 8).length = 8) := by
      rw [List.length_take]
      omega
    simp only [format_cep, normalize_cep, if_neg hne]
  refine ⟨hlt, ?_, ?_⟩
  · intro cep h
    have heq : (((pyDigits cep).take 8).length = 8) := by
      rw [List.length_take]
      omega
    simp only [format_cep, normalize_cep, if_pos heq]
  · intro e nome h
    have hlast : (format_address_correios e nome).getLast? =
        some (format_cep e.cep ++ " ".toList ++ e.cidade ++ "/".toList ++
          pyUpper e.estado) := rfl
    rw [hlast, hlt e.cep h]

open LabelPrinter LabelPrinter.LabelGenerator in
/-- Witness for C10: the 5-digit input `"1.2.3"` (3 digits) passes
through unchanged, while `"013101000"` (9 digits) has its first 8 digits
formatted as `01310-100`. -/
theorem format_cep_spec_witness :
    ((pyDigits "1.2.3".toList).length < 8 ∧
      format_cep "1.2.3".toList = "1.2.3".toList) ∧
    (8 ≤ (pyDigits "013101000".toList).length ∧
      format_cep "013101000".toList = "01310-100".toList) := by
  refine ⟨⟨by decide, format_cep_spec.1 "1.2.3".toList (by decide)⟩, ⟨by decide, ?_⟩⟩
  rw [format_cep_spec.2.1 "013101000".toList (by decide)]
  rfl
